import Mathlib

/-!
Verification of the citation-cluster and bibliography state-management core of
`chrome/content/zotero/xpcom/citeprocRsBridge.js` (the `Zotero.CiteprocRs.Engine`
class), by a shallow embedding in Lean 4.

The external citeproc-rs engine handle (`this._driver`) is an out-of-scope
collaborator (spec section 6); it is modelled abstractly: every call issued to it
is recorded in an explicit trace (`DriverCall`), and the handle's observable
state (registered references, committed clusters, cluster order, uncited set,
output format) is tracked per the narrow interface of spec section 6.
JavaScript values relevant to the bridge's truthiness tests and string
coercions are modelled by `JSVal`.
-/

namespace CiteprocRs

/-- A JavaScript value, as far as the bridge inspects one: `undefined`, `NaN`,
booleans, (integer) numbers and strings.  Only truthiness tests and template
string coercion are applied to these by the bridge. -/
inductive JSVal where
  | undefined
  | nan
  | bool (b : Bool)
  | num (n : Int)
  | str (s : String)
deriving DecidableEq, Repr

/-- JavaScript truthiness of a `JSVal` (`undefined`, `NaN`, `false`, `0` and
`""` are falsy). -/
def truthy : JSVal → Bool
  | .undefined => false
  | .nan => false
  | .bool b => b
  | .num n => decide (n ≠ 0)
  | .str s => decide (s ≠ "")

/-- JavaScript template-string coercion of a `JSVal`, as in the source's
backtick interpolation of an item id. -/
def jsToString : JSVal → String
  | .undefined => "undefined"
  | .nan => "NaN"
  | .bool b => if b then "true" else "false"
  | .num n => toString n
  | .str s => s

/-- The digit prefix of a character list. -/
def leadingDigits (cs : List Char) : List Char := cs.takeWhile Char.isDigit

/-- Value of a (decimal) digit list. -/
def digitsToNat (ds : List Char) : Nat := ds.foldl (fun a c => a * 10 + (c.toNat - 48)) 0

/-- Model of JavaScript `parseInt` restricted to decimal input: trim
whitespace, accept an optional sign, read the maximal digit prefix, `NaN`
when no digits are present. -/
def parseIntJS (s : String) : JSVal :=
  match s.trim.toList with
  | '-' :: rest =>
    let ds := leadingDigits rest
    if ds.isEmpty then .nan else .num (-(digitsToNat ds : Int))
  | '+' :: rest =>
    let ds := leadingDigits rest
    if ds.isEmpty then .nan else .num (digitsToNat ds)
  | cs =>
    let ds := leadingDigits cs
    if ds.isEmpty then .nan else .num (digitsToNat ds)

/-- The note-index normalization applied throughout the source:
`noteIndex = typeof noteIndex == "string" ? parseInt(noteIndex) : noteIndex`. -/
def normalizeNote : JSVal → JSVal
  | .str s => parseIntJS s
  | v => v

/-- Truthiness of an optional string (a JS variable that is `undefined` or a
string), as used by `if (!citation.citationID)`. -/
def strOptTruthy : Option String → Bool
  | none => false
  | some s => decide (s ≠ "")

/-- A bibliographic reference record as returned by the item provider
(`this.sys.retrieveItem`); the bibliographic payload is opaque to the bridge,
only the `id` field is inspected and rewritten. -/
structure Reference where
  id : JSVal
  data : String := ""
deriving DecidableEq, Repr

/-- `citeprocItem.id = `${citeprocItem.id}``: force the reference's identifier
to its string representation. -/
def normalizeRef (r : Reference) : Reference :=
  { r with id := .str (jsToString r.id) }

/-- One cited item of an application-level citation request, with the six
`additionalCSLProperties` modifiers (`prefixVal` stands for the JS property
named "prefix", which is not a usable Lean field name). -/
structure CitationItem where
  id : JSVal
  locator : JSVal := .undefined
  label : JSVal := .undefined
  suppressAuthor : JSVal := .undefined
  authorOnly : JSVal := .undefined
  prefixVal : JSVal := .undefined
  suffix : JSVal := .undefined
deriving DecidableEq, Repr

/-- `citation.properties` (only `noteIndex` is read by the bridge). -/
structure CitationProperties where
  noteIndex : JSVal := .undefined
deriving DecidableEq, Repr

/-- An application-level citation request. -/
structure Citation where
  citationID : Option String := none
  citationItems : List CitationItem := []
  properties : CitationProperties := {}
deriving DecidableEq, Repr

/-- The engine-facing normalized form of a `CitationItem`, as assembled by
`_insertCitationReferences` (`prefixVal` models the JS property "prefix").
The source initializes `locator` and `locators` to `undefined` explicitly;
`none` models an absent/undefined property. -/
structure Cite where
  id : String
  mode : Option String := none
  locator : Option JSVal := none
  locators : Option JSVal := none
  label : Option JSVal := none
  prefixVal : Option JSVal := none
  suffix : Option JSVal := none
deriving DecidableEq, Repr

/-- `const additionalCSLProperties = ['locator', 'label', 'suppress-author',
'author-only', 'prefix', 'suffix'];` -/
def additionalCSLProperties : List String :=
  ["locator", "label", "suppress-author", "author-only", "prefix", "suffix"]

/-- `citationItem[key]` for the keys appearing in `additionalCSLProperties`. -/
def CitationItem.getProp (it : CitationItem) (key : String) : JSVal :=
  if key = "locator" then it.locator
  else if key = "label" then it.label
  else if key = "suppress-author" then it.suppressAuthor
  else if key = "author-only" then it.authorOnly
  else if key = "prefix" then it.prefixVal
  else if key = "suffix" then it.suffix
  else .undefined

/-- `cite[key] = citationItem[key]` for the default branch of the switch
(the keys `locator`, `label`, `prefix`, `suffix`). -/
def Cite.setProp (c : Cite) (key : String) (v : JSVal) : Cite :=
  if key = "locator" then { c with locator := some v }
  else if key = "label" then { c with label := some v }
  else if key = "prefix" then { c with prefixVal := some v }
  else if key = "suffix" then { c with suffix := some v }
  else c

/-- The body of the `additionalCSLProperties.forEach((key) => ...)` callback:
skip falsy properties, map the two suppression modes to `mode`, copy the rest. -/
def applyCSLProperty (citationItem : CitationItem) (cite : Cite) (key : String) : Cite :=
  if !(truthy (citationItem.getProp key)) then cite
  else if key = "suppress-author" then { cite with mode := some "SuppressAuthor" }
  else if key = "author-only" then { cite with mode := some "AuthorOnly" }
  else cite.setProp key (citationItem.getProp key)

/-- Build one `Cite` from a (normalized) retrieved item and the citation item,
as in the loop body of `_insertCitationReferences`: start from
`{ id: `${citeprocItem.id}`, locator: undefined, locators: undefined }` and
fold the `forEach` over `additionalCSLProperties`. -/
def buildCite (citeprocItem : Reference) (citationItem : CitationItem) : Cite :=
  additionalCSLProperties.foldl (applyCSLProperty citationItem)
    { id := jsToString citeprocItem.id }

/-- The value of `buildCite` spelled out field by field, valid when
suppress-author and author-only are not simultaneously truthy. -/
theorem buildCite_eq (r : Reference) (it : CitationItem)
    (h : ¬(truthy it.suppressAuthor = true ∧ truthy it.authorOnly = true)) :
    buildCite r it =
      { id := jsToString r.id
        mode := if truthy it.suppressAuthor then some "SuppressAuthor"
                else if truthy it.authorOnly then some "AuthorOnly" else none
        locator := if truthy it.locator then some it.locator else none
        locators := none
        label := if truthy it.label then some it.label else none
        prefixVal := if truthy it.prefixVal then some it.prefixVal else none
        suffix := if truthy it.suffix then some it.suffix else none } := by
  cases h1 : truthy it.locator <;> cases h2 : truthy it.label <;>
    cases h3 : truthy it.suppressAuthor <;> cases h4 : truthy it.authorOnly <;>
    cases h5 : truthy it.prefixVal <;> cases h6 : truthy it.suffix <;>
    simp_all [buildCite, additionalCSLProperties, applyCSLProperty,
      CitationItem.getProp, Cite.setProp]

/-- One entry of a whole-document cluster order (`{ id, note? }`), as built by
`_getClusterOrder` and by the preview splice (whose own entry carries no id). -/
structure OrderEntry where
  id : Option String := none
  note : Option JSVal := none
deriving DecidableEq, Repr

/-- One in-text citation group in engine shape, as built by `insertCluster`
(`{ id: citation.citationID, cites }`) or by the preview (`{ cites }`, no id). -/
structure Cluster where
  id : Option String := none
  cites : List Cite := []
deriving DecidableEq, Repr

/-- A call issued to the external engine handle, recorded for the effect
trace of each session operation. -/
inductive DriverCall where
  | freeDriver
  | newDriver (style format : String) (localeOverride : Option String)
  | setOutputFormat (format : String)
  | insertReference (r : Reference)
  | insertCluster (c : Cluster)
  | previewCluster (c : Cluster) (order : List OrderEntry) (format : String)
  | setClusterOrder (order : List OrderEntry)
  | includeUncited (ids : List String)
  | builtCluster (id : Option String)
deriving DecidableEq, Repr

/-- Abstract state of the external engine handle, per the narrow interface of
spec section 6: registered references, committed clusters, the document
cluster order, the uncited-inclusion set, and the output format.  `freeError`
models whether releasing this handle raises (the engine may throw from
`free()`); it is the error the `free` call would raise. -/
structure Driver where
  format : String
  references : List Reference := []
  clusters : List Cluster := []
  order : List OrderEntry := []
  uncited : Option (List String) := none
  freeError : Option String := none
deriving DecidableEq, Repr

/-- Modelled from the spec: `handle.insertReference(referenceRecord)` registers
a reference with the engine (section 6). -/
def Driver.doInsertReference (d : Driver) (r : Reference) : Driver :=
  { d with references := d.references ++ [r] }

/-- Modelled from the spec: `handle.insertCluster(cluster)` commits a cluster
(section 6). -/
def Driver.doInsertCluster (d : Driver) (c : Cluster) : Driver :=
  { d with clusters := d.clusters ++ [c] }

/-- Modelled from the spec: `handle.setClusterOrder(order)` replaces the
whole-document order (sections 4.3, 6). -/
def Driver.doSetClusterOrder (d : Driver) (o : List OrderEntry) : Driver :=
  { d with order := o }

/-- Modelled from the spec: `handle.includeUncited({Specific: idSequence})`
restricts uncited inclusion to exactly the given set, replacing any previous
set (sections 4.5, 6). -/
def Driver.doIncludeUncited (d : Driver) (ids : List String) : Driver :=
  { d with uncited := some ids }

/-- Modelled from the spec: `handle.setOutputFormat(fmt)` switches the output
format of the live handle in place (sections 4.4, 6). -/
def Driver.doSetOutputFormat (d : Driver) (f : String) : Driver :=
  { d with format := f }

/-- The fields of one `Zotero.CiteprocRs.Engine` session: `_styleXML`,
`_overrideLocale`, `locale`, `_format`, `styleID`, `hasBibliography`, and the
exclusively owned engine handle `_driver`.  The item provider `sys` is an
external function passed to each operation that uses it. -/
structure EngineState where
  styleXML : String
  overrideLocale : Bool
  locale : String
  format : String
  styleID : String := ""
  hasBibliography : Bool := true
  driver : Driver
deriving DecidableEq, Repr

/-- A session together with the trace of engine-handle calls issued so far. -/
abbrev SessionState := EngineState × List DriverCall

/-- `_resetDriver()`: release the existing handle (`this._driver` is always
set once the constructor has run, so the guard is taken), then create a fresh
handle from the current style XML and format, with a locale override exactly
when `_overrideLocale` is set. -/
def resetDriver (m : SessionState) : SessionState :=
  let (s, log) := m
  let log := log ++ [.freeDriver]
  (({ s with driver := { format := s.format } }),
   log ++ [.newDriver s.styleXML s.format (if s.overrideLocale then some s.locale else none)])

/-- `_insertCitationReferences(citation)`: for each citation item, retrieve
the item, force its identifier to string form, register it with the handle,
and build the corresponding `Cite`; returns the assembled cite list. -/
def insertCitationReferences (sys : JSVal → Reference) (citation : Citation)
    (m : SessionState) : SessionState × List Cite :=
  citation.citationItems.foldl
    (fun (acc : SessionState × List Cite) citationItem =>
      let citeprocItem := normalizeRef (sys citationItem.id)
      let (s, log) := acc.1
      (({ s with driver := s.driver.doInsertReference citeprocItem },
        log ++ [.insertReference citeprocItem]),
       acc.2 ++ [buildCite citeprocItem citationItem]))
    (m, [])

/-- `_getClusterOrder(citations)`: normalize each `[citationID, noteIndex]`
pair to an order entry, attaching `note` only when the normalized note index
is truthy. -/
def getClusterOrder (citations : List (Option String × JSVal)) : List OrderEntry :=
  citations.map fun p =>
    let noteIndex := normalizeNote p.2
    { id := p.1, note := if truthy noteIndex then some noteIndex else none }

/-- JavaScript `arr.splice(i, 0, x)` (insertion form): insert `x` before
index `i` (clamped to the length, as splice does). -/
def spliceInsert (l : List α) (i : Nat) (x : α) : List α :=
  l.take i ++ [x] ++ l.drop i

/-- `previewCitationCluster(citation, citationsPre, citationsPost,
outputFormat)`.  `fresh` stands for `Zotero.Utilities.randomString(10)`.
Returns the session state (with the `previewCluster` query logged), the
citation object as it stands after the call (the source assigns
`citation.citationID` when it is falsy), and the cluster order submitted to
the engine. -/
def previewCitationCluster (sys : JSVal → Reference) (fresh : String)
    (citation : Citation) (citationsPre citationsPost : List (Option String × JSVal))
    (outputFormat : String) (m : SessionState) :
    SessionState × Citation × List OrderEntry :=
  let citation := if strOptTruthy citation.citationID then citation
    else { citation with citationID := some fresh }
  let (m1, cites) := insertCitationReferences sys citation m
  let cluster : Cluster := { cites := cites }
  let noteIndex := normalizeNote citation.properties.noteIndex
  let thisClusterOrder : OrderEntry :=
    { note := if truthy noteIndex then some noteIndex else none }
  let allClusterOrder :=
    spliceInsert (getClusterOrder (citationsPre ++ citationsPost))
      citationsPre.length thisClusterOrder
  let (s, log) := m1
  ((s, log ++ [.previewCluster cluster allClusterOrder outputFormat]),
   citation, allClusterOrder)

/-- `insertCluster(citation)`: build `{ id: citation.citationID, cites }`,
insert it into the handle, return the cluster. -/
def insertCluster (sys : JSVal → Reference) (citation : Citation)
    (m : SessionState) : SessionState × Cluster :=
  let (m1, cites) := insertCitationReferences sys citation m
  let cluster : Cluster := { id := citation.citationID, cites := cites }
  let (s, log) := m1
  (({ s with driver := s.driver.doInsertCluster cluster },
    log ++ [.insertCluster cluster]), cluster)

/-- `appendCitationCluster(citation)`: insert the cluster, then query the
handle's rendered string for `citation.citationID` (the query is recorded as
a `builtCluster` call; its rendered result is engine output). -/
def appendCitationCluster (sys : JSVal → Reference) (citation : Citation)
    (m : SessionState) : SessionState :=
  let (s, log) := (insertCluster sys citation m).1
  (s, log ++ [.builtCluster citation.citationID])

/-- `setClusterOrder(citations)`: compute the normalized order and submit it
wholesale. -/
def setClusterOrder (citations : List (Option String × JSVal))
    (m : SessionState) : SessionState :=
  let clusters := getClusterOrder citations
  let (s, log) := m
  ({ s with driver := s.driver.doSetClusterOrder clusters },
   log ++ [.setClusterOrder clusters])

/-- `setOutputFormat(format)`: normalize the "text" alias to "plain"; when
the format actually changes, record it and switch the live handle in place. -/
def setOutputFormat (format : String) (m : SessionState) : SessionState :=
  let format := if format = "text" then "plain" else format
  let (s, log) := m
  if s.format ≠ format then
    ({ s with format := format, driver := s.driver.doSetOutputFormat format },
     log ++ [.setOutputFormat format])
  else m

/-- `updateUncitedItems(itemIDs)`: resolve and register each item, collecting
the normalized string identifiers, then restrict uncited inclusion to exactly
that list. -/
def updateUncitedItems (sys : JSVal → Reference) (itemIDs : List JSVal)
    (m : SessionState) : SessionState :=
  let (m1, referenceIDs) := itemIDs.foldl
    (fun (acc : SessionState × List String) id =>
      let citeprocItem := normalizeRef (sys id)
      let (s, log) := acc.1
      (({ s with driver := s.driver.doInsertReference citeprocItem },
        log ++ [.insertReference citeprocItem]),
       acc.2 ++ [jsToString citeprocItem.id]))
    (m, [])
  let (s, log) := m1
  ({ s with driver := s.driver.doIncludeUncited referenceIDs },
   log ++ [.includeUncited referenceIDs])

/-- `updateItems(itemIDs)`: forwards to `updateUncitedItems`. -/
def updateItems (sys : JSVal → Reference) (itemIDs : List JSVal)
    (m : SessionState) : SessionState :=
  updateUncitedItems sys itemIDs m

/-- `rebuildProcessorState(citations, format, uncited)`: set the new format,
reset the driver, insert every citation as a cluster in list order, set the
whole-document order from the same list's `(citationID, noteIndex)` pairs,
then register the uncited items. -/
def rebuildProcessorState (sys : JSVal → Reference) (citations : List Citation)
    (format : String) (uncited : List JSVal) (m : SessionState) : SessionState :=
  let (s, log) := m
  let m := resetDriver ({ s with format := format }, log)
  let m := citations.foldl (fun m citation => (insertCluster sys citation m).1) m
  let m := setClusterOrder
    (citations.map fun citation => (citation.citationID, citation.properties.noteIndex)) m
  updateUncitedItems sys uncited m

/-- `free(ignoreErrors)`: attempt to release the handle; an error raised by
the release is swallowed exactly when `ignoreErrors` is set, and no session
field is assigned on either path. -/
def free (ignoreErrors : Bool) (m : SessionState) :
    Except String Unit × SessionState :=
  let (s, log) := m
  match s.driver.freeError with
  | none => (.ok (), (s, log ++ [.freeDriver]))
  | some e => (if ignoreErrors then .ok () else .error e, (s, log ++ [.freeDriver]))

/-- `formatMeta` of the engine's bibliography metadata (only `markupPre` and
`markupPost` are read). -/
structure FormatMeta where
  markupPre : JSVal := .undefined
  markupPost : JSVal := .undefined
deriving DecidableEq, Repr

/-- The engine's `bibliographyMeta()` record, with the fields the bridge
reads; `formatMeta` may be absent. -/
structure EngineBibMeta where
  maxOffset : JSVal := .undefined
  lineSpacing : JSVal := .undefined
  entrySpacing : JSVal := .undefined
  hangingIndent : JSVal := .undefined
  secondFieldAlign : JSVal := .undefined
  formatMeta : Option FormatMeta := none
deriving DecidableEq, Repr

/-- The merged metadata object produced by `Object.assign(bibliographyMeta,
{...})` plus the `second-field-align` assignment: the original engine fields
are retained (`toEngineBibMeta`) and the legacy names are added.
`secondFieldAlignLegacy` models the JS key `"second-field-align"`. -/
structure BibliographyMeta extends EngineBibMeta where
  maxoffset : JSVal := .undefined
  linespacing : JSVal := .undefined
  entryspacing : JSVal := .undefined
  hangingindent : JSVal := .undefined
  bibstart : JSVal := .undefined
  bibend : JSVal := .undefined
  secondFieldAlignLegacy : JSVal := .undefined
deriving DecidableEq, Repr

/-- One entry of the engine's `makeBibliography()` output. -/
structure BibEntry where
  id : String
  value : String
deriving DecidableEq, Repr

/-- The metadata translation inside `makeBibliography`:
`Object.assign(bibliographyMeta, { maxoffset: ..., ..., bibstart:
bibliographyMeta.formatMeta && bibliographyMeta.formatMeta.markupPre, ... })`
followed by `bibliographyMeta['second-field-align'] = ...`.  The legacy key
names do not collide with the engine's camel-case names, so the original
fields are retained unchanged. -/
def translateBibliographyMeta (meta : EngineBibMeta) : BibliographyMeta :=
  { toEngineBibMeta := meta
    maxoffset := meta.maxOffset
    linespacing := meta.lineSpacing
    entryspacing := meta.entrySpacing
    hangingindent := meta.hangingIndent
    bibstart := match meta.formatMeta with
      | none => .undefined
      | some formatMeta => formatMeta.markupPre
    bibend := match meta.formatMeta with
      | none => .undefined
      | some formatMeta => formatMeta.markupPost
    secondFieldAlignLegacy := meta.secondFieldAlign }

/-- `makeBibliography()`.  The engine handle's two query results
(`bibliographyMeta()` and `makeBibliography()`) are black-box engine outputs
and enter as the parameters `meta` and `bibliographyEntries`.  Returns the
merged metadata object (with `entry_ids` as a separate component of the
pair, standing for the `Object.assign({ entry_ids }, bibliographyMeta)`
field) and the format-wrapped strings. -/
def makeBibliography (s : EngineState) (meta : EngineBibMeta)
    (bibliographyEntries : List BibEntry) :
    (BibliographyMeta × List (List String)) × List String :=
  let bibliographyMeta := translateBibliographyMeta meta
  let entry_ids := bibliographyEntries.map fun entry => [entry.id]
  let strings :=
    if s.format = "html" then
      bibliographyEntries.map fun entry =>
        "<div class=\"csl-entry\">" ++ entry.value ++ "</div>"
    else if s.format = "plain" then
      bibliographyEntries.map fun entry => entry.value ++ "\n"
    else
      bibliographyEntries.map fun entry => entry.value
  ((bibliographyMeta, entry_ids), strings)

/-! Derived descriptions of the per-citation work of `_insertCitationReferences`
and of the traces of the composite operations, used to characterize the folds. -/

/-- The normalized references registered for a citation's items, in item order. -/
def refsOf (sys : JSVal → Reference) (citation : Citation) : List Reference :=
  citation.citationItems.map fun it => normalizeRef (sys it.id)

/-- The cite list built for a citation, in item order. -/
def citesOf (sys : JSVal → Reference) (citation : Citation) : List Cite :=
  citation.citationItems.map fun it => buildCite (normalizeRef (sys it.id)) it

/-- The `insertReference` calls issued for a citation's items, in item order. -/
def citationReferenceCalls (sys : JSVal → Reference) (citation : Citation) :
    List DriverCall :=
  citation.citationItems.map fun it => .insertReference (normalizeRef (sys it.id))

/-- The cluster committed by `insertCluster` for a citation. -/
def clusterOf (sys : JSVal → Reference) (citation : Citation) : Cluster :=
  { id := citation.citationID, cites := citesOf sys citation }

/-- The handle calls issued by one `insertCluster`. -/
def insertClusterCalls (sys : JSVal → Reference) (citation : Citation) :
    List DriverCall :=
  citationReferenceCalls sys citation ++ [.insertCluster (clusterOf sys citation)]

/-- The normalized references registered by `updateUncitedItems`. -/
def uncitedRefsOf (sys : JSVal → Reference) (ids : List JSVal) : List Reference :=
  ids.map fun id => normalizeRef (sys id)

/-- The normalized string identifiers collected by `updateUncitedItems`. -/
def uncitedIDsOf (sys : JSVal → Reference) (ids : List JSVal) : List String :=
  ids.map fun id => jsToString (sys id).id

/-- The handle calls issued by one `updateUncitedItems`. -/
def uncitedCalls (sys : JSVal → Reference) (ids : List JSVal) : List DriverCall :=
  (ids.map fun id => DriverCall.insertReference (normalizeRef (sys id)))
    ++ [.includeUncited (uncitedIDsOf sys ids)]

theorem insertRefs_foldl (sys : JSVal → Reference) (items : List CitationItem) :
    ∀ (s : EngineState) (log : List DriverCall) (cites : List Cite),
    (items.foldl
      (fun (acc : SessionState × List Cite) citationItem =>
        let citeprocItem := normalizeRef (sys citationItem.id)
        let (s, log) := acc.1
        (({ s with driver := s.driver.doInsertReference citeprocItem },
          log ++ [.insertReference citeprocItem]),
         acc.2 ++ [buildCite citeprocItem citationItem]))
      ((s, log), cites)) =
    (({ s with driver := { s.driver with
          references := s.driver.references ++ items.map fun it => normalizeRef (sys it.id) } },
      log ++ (items.map fun it => DriverCall.insertReference (normalizeRef (sys it.id)))),
     cites ++ (items.map fun it => buildCite (normalizeRef (sys it.id)) it)) := by
  induction items with
  | nil => intro s log cites; simp
  | cons it rest ih =>
    intro s log cites
    simp only [List.foldl_cons, List.map_cons]
    rw [ih]
    simp [Driver.doInsertReference]

theorem insertCitationReferences_eq (sys : JSVal → Reference) (citation : Citation)
    (s : EngineState) (log : List DriverCall) :
    insertCitationReferences sys citation (s, log) =
      (({ s with driver := { s.driver with
            references := s.driver.references ++ refsOf sys citation } },
        log ++ citationReferenceCalls sys citation),
       citesOf sys citation) := by
  simpa [insertCitationReferences, refsOf, citationReferenceCalls, citesOf]
    using insertRefs_foldl sys citation.citationItems s log []

theorem insertCluster_eq (sys : JSVal → Reference) (citation : Citation)
    (s : EngineState) (log : List DriverCall) :
    insertCluster sys citation (s, log) =
      (({ s with driver := { s.driver with
            references := s.driver.references ++ refsOf sys citation,
            clusters := s.driver.clusters ++ [clusterOf sys citation] } },
        log ++ insertClusterCalls sys citation),
       clusterOf sys citation) := by
  simp [insertCluster, insertCitationReferences_eq, Driver.doInsertCluster,
    insertClusterCalls, clusterOf]

theorem insertClusters_foldl (sys : JSVal → Reference) (citations : List Citation) :
    ∀ (s : EngineState) (log : List DriverCall),
    citations.foldl (fun m citation => (insertCluster sys citation m).1) (s, log) =
      ({ s with driver := { s.driver with
          references := s.driver.references ++ citations.flatMap (refsOf sys),
          clusters := s.driver.clusters ++ citations.map (clusterOf sys) } },
       log ++ citations.flatMap (insertClusterCalls sys)) := by
  induction citations with
  | nil => intro s log; simp
  | cons citation rest ih =>
    intro s log
    simp only [List.foldl_cons, List.flatMap_cons, List.map_cons, insertCluster_eq]
    rw [ih]
    simp

theorem updateUncitedItems_eq (sys : JSVal → Reference) (ids : List JSVal)
    (s : EngineState) (log : List DriverCall) :
    updateUncitedItems sys ids (s, log) =
      ({ s with driver := { s.driver with
          references := s.driver.references ++ uncitedRefsOf sys ids,
          uncited := some (uncitedIDsOf sys ids) } },
       log ++ uncitedCalls sys ids) := by
  have aux : ∀ (its : List JSVal) (s : EngineState) (log : List DriverCall)
      (acc : List String),
      (its.foldl
        (fun (acc : SessionState × List String) id =>
          let citeprocItem := normalizeRef (sys id)
          let (s, log) := acc.1
          (({ s with driver := s.driver.doInsertReference citeprocItem },
            log ++ [.insertReference citeprocItem]),
           acc.2 ++ [jsToString citeprocItem.id]))
        ((s, log), acc)) =
      (({ s with driver := { s.driver with
            references := s.driver.references ++ uncitedRefsOf sys its } },
        log ++ (its.map fun id => DriverCall.insertReference (normalizeRef (sys id)))),
       acc ++ uncitedIDsOf sys its) := by
    intro its
    induction its with
    | nil => intro s log acc; simp [uncitedRefsOf, uncitedIDsOf]
    | cons id rest ih =>
      intro s log acc
      simp only [List.foldl_cons, uncitedRefsOf, uncitedIDsOf, List.map_cons]
      rw [ih]
      simp [Driver.doInsertReference, uncitedRefsOf, uncitedIDsOf, normalizeRef, jsToString]
  simp only [updateUncitedItems]
  rw [aux]
  simp [Driver.doIncludeUncited, uncitedCalls]

/-! Concrete sample data used by witnesses and counterexamples. -/

/-- A concrete item provider: the reference's identifier is the requested id. -/
def sampleSys : JSVal → Reference := fun id => { id := id, data := "item" }

/-- A concrete three-item citation exercising every modifier field. -/
def sampleCitation : Citation :=
  { citationID := some "CIT1"
    citationItems :=
      [{ id := .num 11, locator := .str "23", label := .str "page",
         suppressAuthor := .bool true },
       { id := .str "ref2", prefixVal := .str "cf. ", suffix := .str ", passim",
         authorOnly := .bool true },
       { id := .num 3 }]
    properties := { noteIndex := .num 2 } }

/-- A concrete live session in HTML format with a fresh handle. -/
def sampleState : EngineState :=
  { styleXML := "<style/>", overrideLocale := false, locale := "en-US",
    format := "html", styleID := "chicago", driver := { format := "html" } }

/-- C1: for a citation request whose items never activate both suppress-author
and author-only at once, `_insertCitationReferences` returns one `Cite` per
input item, in input order, whose `id` is the string form of the resolved
reference's identifier, whose `locator`/`label`/`prefix`/`suffix` are copied
exactly when truthy in the input item, and whose `mode` is "SuppressAuthor"
when suppress-author is active, "AuthorOnly" when author-only is active, and
absent otherwise. -/
theorem insertCitationReferences_cites_spec (sys : JSVal → Reference)
    (citation : Citation) (s : EngineState) (log : List DriverCall)
    (hexcl : ∀ it ∈ citation.citationItems,
      ¬(truthy it.suppressAuthor = true ∧ truthy it.authorOnly = true)) :
    (insertCitationReferences sys citation (s, log)).2 =
      citation.citationItems.map (fun it =>
        { id := jsToString (sys it.id).id
          mode := if truthy it.suppressAuthor then some "SuppressAuthor"
                  else if truthy it.authorOnly then some "AuthorOnly" else none
          locator := if truthy it.locator then some it.locator else none
          locators := none
          label := if truthy it.label then some it.label else none
          prefixVal := if truthy it.prefixVal then some it.prefixVal else none
          suffix := if truthy it.suffix then some it.suffix else none }) := by
  rw [insertCitationReferences_eq]
  simp only [citesOf]
  refine List.map_congr_left fun it hit => ?_
  rw [buildCite_eq _ _ (hexcl it hit)]
  simp [normalizeRef, jsToString]

/-- Witness for C1 at the concrete three-item citation. -/
theorem insertCitationReferences_cites_spec_witness :
    (∀ it ∈ sampleCitation.citationItems,
      ¬(truthy it.suppressAuthor = true ∧ truthy it.authorOnly = true)) ∧
    (insertCitationReferences sampleSys sampleCitation (sampleState, [])).2 =
      sampleCitation.citationItems.map (fun it =>
        { id := jsToString (sampleSys it.id).id
          mode := if truthy it.suppressAuthor then some "SuppressAuthor"
                  else if truthy it.authorOnly then some "AuthorOnly" else none
          locator := if truthy it.locator then some it.locator else none
          locators := none
          label := if truthy it.label then some it.label else none
          prefixVal := if truthy it.prefixVal then some it.prefixVal else none
          suffix := if truthy it.suffix then some it.suffix else none }) :=
  ⟨by decide,
   insertCitationReferences_cites_spec sampleSys sampleCitation sampleState [] (by decide)⟩

/-- C2: the cluster order submitted to the engine by `previewCitationCluster`
is the normalized order of `citationsPre`, then the previewed cluster's own
entry (note index normalized from string to integer, omitted when falsy),
then the normalized order of `citationsPost`; its length is
`len(citationsPre) + 1 + len(citationsPost)` and the previewed entry sits at
index `len(citationsPre)`. -/
theorem previewCitationCluster_order_spec (sys : JSVal → Reference)
    (fresh : String) (citation : Citation)
    (citationsPre citationsPost : List (Option String × JSVal))
    (outputFormat : String) (s : EngineState) (log : List DriverCall) :
    (previewCitationCluster sys fresh citation citationsPre citationsPost
        outputFormat (s, log)).2.2 =
      getClusterOrder citationsPre ++
        [{ note := if truthy (normalizeNote citation.properties.noteIndex)
                   then some (normalizeNote citation.properties.noteIndex) else none }] ++
        getClusterOrder citationsPost ∧
    (previewCitationCluster sys fresh citation citationsPre citationsPost
        outputFormat (s, log)).2.2.length =
      citationsPre.length + 1 + citationsPost.length ∧
    (previewCitationCluster sys fresh citation citationsPre citationsPost
        outputFormat (s, log)).2.2[citationsPre.length]? =
      some { note := if truthy (normalizeNote citation.properties.noteIndex)
                     then some (normalizeNote citation.properties.noteIndex) else none } := by
  have hpre : (getClusterOrder citationsPre).length = citationsPre.length := by
    simp [getClusterOrder]
  have hsplit :
      (previewCitationCluster sys fresh citation citationsPre citationsPost
        outputFormat (s, log)).2.2 =
      getClusterOrder citationsPre ++
        [{ note := if truthy (normalizeNote citation.properties.noteIndex)
                   then some (normalizeNote citation.properties.noteIndex) else none }] ++
        getClusterOrder citationsPost := by
    cases hid : strOptTruthy citation.citationID <;>
      simp only [previewCitationCluster, hid, Bool.false_eq_true, if_true, if_false,
        insertCitationReferences_eq, spliceInsert, getClusterOrder, List.map_append] <;>
      rw [List.take_left' (by simp [getClusterOrder]),
        List.drop_left' (by simp [getClusterOrder])]
  refine ⟨hsplit, ?_, ?_⟩
  · rw [hsplit]; simp [getClusterOrder]; omega
  · rw [hsplit, List.append_assoc, ← hpre, List.getElem?_append_right (Nat.le_refl _)]
    simp

/-- A concrete citation that arrives at the preview without a citation id. -/
def previewInput : Citation := { citationItems := [{ id := .num 1 }] }

/-- C3 counterexample: at a concrete citation lacking a `citationID`,
`previewCitationCluster` assigns a generated id to the input citation and
registers the cited reference with the handle, so neither the input citation
nor the handle's reference state is the same after the call. -/
theorem previewCitationCluster_not_pure :
    (previewCitationCluster sampleSys "aBcDeFgHiJ" previewInput [] [] "html"
        (sampleState, [])).2.1 ≠ previewInput ∧
    (previewCitationCluster sampleSys "aBcDeFgHiJ" previewInput [] [] "html"
        (sampleState, [])).1.1.driver.references ≠ sampleState.driver.references := by
  decide

/-- C3 (amended): `previewCitationCluster` leaves the session's fields and the
handle's committed cluster and order state unchanged and issues the preview
as a query against the hypothetical order, but it does register each cited
reference with the handle, and it assigns the generated id to the input
citation when the citation's id is falsy. -/
theorem previewCitationCluster_effects (sys : JSVal → Reference) (fresh : String)
    (citation : Citation) (citationsPre citationsPost : List (Option String × JSVal))
    (outputFormat : String) (s : EngineState) (log : List DriverCall) :
    (previewCitationCluster sys fresh citation citationsPre citationsPost
        outputFormat (s, log)).1.1 =
      { s with driver := { s.driver with
          references := s.driver.references ++ refsOf sys citation } } ∧
    (previewCitationCluster sys fresh citation citationsPre citationsPost
        outputFormat (s, log)).1.1.driver.clusters = s.driver.clusters ∧
    (previewCitationCluster sys fresh citation citationsPre citationsPost
        outputFormat (s, log)).1.1.driver.order = s.driver.order ∧
    (previewCitationCluster sys fresh citation citationsPre citationsPost
        outputFormat (s, log)).1.1.format = s.format ∧
    (previewCitationCluster sys fresh citation citationsPre citationsPost
        outputFormat (s, log)).2.1 =
      (if strOptTruthy citation.citationID then citation
       else { citation with citationID := some fresh }) := by
  have heffect :
      (previewCitationCluster sys fresh citation citationsPre citationsPost
        outputFormat (s, log)).1.1 =
      { s with driver := { s.driver with
          references := s.driver.references ++ refsOf sys citation } } := by
    cases hid : strOptTruthy citation.citationID <;>
      simp [previewCitationCluster, hid, insertCitationReferences_eq, refsOf]
  refine ⟨heffect, by rw [heffect], by rw [heffect], by rw [heffect], ?_⟩
  cases hid : strOptTruthy citation.citationID <;>
    simp [previewCitationCluster, hid, insertCitationReferences_eq]

/-- C4: `rebuildProcessorState(citations, format, uncitedIDs)` performs, in
this order: release of the old handle and creation of a fresh handle under
the new format with the session's current style and locale settings, one
`insertCluster` per supplied citation in list order, one `setClusterOrder`
with the same list's normalized `(citationID, noteIndex)` pairs in the same
order, and the uncited-item registration of `updateUncitedItems` — as recorded
in the handle-call trace, with the final session state assembled accordingly. -/
theorem rebuildProcessorState_spec (sys : JSVal → Reference)
    (citations : List Citation) (format : String) (uncited : List JSVal)
    (s : EngineState) (log : List DriverCall) :
    rebuildProcessorState sys citations format uncited (s, log) =
      ({ s with
          format := format,
          driver := {
            format := format,
            references := citations.flatMap (refsOf sys) ++ uncitedRefsOf sys uncited,
            clusters := citations.map (clusterOf sys),
            order := getClusterOrder (citations.map fun citation =>
              (citation.citationID, citation.properties.noteIndex)),
            uncited := some (uncitedIDsOf sys uncited) } },
       log ++ ([.freeDriver,
           .newDriver s.styleXML format (if s.overrideLocale then some s.locale else none)]
         ++ citations.flatMap (insertClusterCalls sys)
         ++ [.setClusterOrder (getClusterOrder (citations.map fun citation =>
              (citation.citationID, citation.properties.noteIndex)))]
         ++ uncitedCalls sys uncited)) := by
  simp only [rebuildProcessorState, resetDriver]
  rw [insertClusters_foldl]
  simp only [setClusterOrder, Driver.doSetClusterOrder]
  rw [updateUncitedItems_eq]
  simp [List.append_assoc]

/-- C5: the metadata object returned by `makeBibliography` carries the legacy
field names with exactly the engine values (`maxoffset` = `maxOffset`,
`linespacing` = `lineSpacing`, `entryspacing` = `entrySpacing`,
`hangingindent` = `hangingIndent`, `"second-field-align"` =
`secondFieldAlign`, `bibstart`/`bibend` = `formatMeta.markupPre`/`markupPost`,
both undefined when `formatMeta` is absent), while every original engine
field is retained unchanged in the merged result. -/
theorem makeBibliography_meta_spec (s : EngineState) (meta : EngineBibMeta)
    (entries : List BibEntry) :
    ((makeBibliography s meta entries).1.1.maxoffset = meta.maxOffset) ∧
    ((makeBibliography s meta entries).1.1.linespacing = meta.lineSpacing) ∧
    ((makeBibliography s meta entries).1.1.entryspacing = meta.entrySpacing) ∧
    ((makeBibliography s meta entries).1.1.hangingindent = meta.hangingIndent) ∧
    ((makeBibliography s meta entries).1.1.secondFieldAlignLegacy = meta.secondFieldAlign) ∧
    ((makeBibliography s meta entries).1.1.bibstart =
      (match meta.formatMeta with
       | none => JSVal.undefined
       | some formatMeta => formatMeta.markupPre)) ∧
    ((makeBibliography s meta entries).1.1.bibend =
      (match meta.formatMeta with
       | none => JSVal.undefined
       | some formatMeta => formatMeta.markupPost)) ∧
    ((makeBibliography s meta entries).1.1.toEngineBibMeta = meta) := by
  refine ⟨rfl, rfl, rfl, rfl, rfl, rfl, rfl, rfl⟩

/-- C6: the string sequence returned by `makeBibliography` preserves entry
order and wraps each entry's value per the session's output format — the
fixed csl-entry div for "html", a trailing newline for "plain", the value
unchanged for any other format — and the metadata carries `entry_ids`, the
ordered sequence of singleton sequences of the entries' identifiers. -/
theorem makeBibliography_entries_spec (s : EngineState) (meta : EngineBibMeta)
    (entries : List BibEntry) :
    ((makeBibliography s meta entries).1.2 = entries.map fun entry => [entry.id]) ∧
    (s.format = "html" →
      (makeBibliography s meta entries).2 =
        entries.map fun entry => "<div class=\"csl-entry\">" ++ entry.value ++ "</div>") ∧
    (s.format = "plain" →
      (makeBibliography s meta entries).2 = entries.map fun entry => entry.value ++ "\n") ∧
    (s.format ≠ "html" → s.format ≠ "plain" →
      (makeBibliography s meta entries).2 = entries.map fun entry => entry.value) := by
  refine ⟨rfl, fun h => ?_, fun h => ?_, fun h1 h2 => ?_⟩
  · simp [makeBibliography, h]
  · simp [makeBibliography, h]
  · simp [makeBibliography, h1, h2]

/-- A concrete engine bibliography-metadata record. -/
def sampleMeta : EngineBibMeta :=
  { maxOffset := .num 2, lineSpacing := .num 1, entrySpacing := .num 0,
    hangingIndent := .bool true, secondFieldAlign := .bool false,
    formatMeta := some { markupPre := .str "<div>", markupPost := .str "</div>" } }

/-- Concrete bibliography entries. -/
def sampleEntries : List BibEntry := [{ id := "a", value := "X" }, { id := "b", value := "Y" }]

/-- Witness for C6 at the concrete HTML-format session and two entries. -/
theorem makeBibliography_entries_spec_witness :
    ((makeBibliography sampleState sampleMeta sampleEntries).1.2 =
      sampleEntries.map fun entry => [entry.id]) ∧
    (sampleState.format = "html" →
      (makeBibliography sampleState sampleMeta sampleEntries).2 =
        sampleEntries.map fun entry =>
          "<div class=\"csl-entry\">" ++ entry.value ++ "</div>") ∧
    (sampleState.format = "plain" →
      (makeBibliography sampleState sampleMeta sampleEntries).2 =
        sampleEntries.map fun entry => entry.value ++ "\n") ∧
    (sampleState.format ≠ "html" → sampleState.format ≠ "plain" →
      (makeBibliography sampleState sampleMeta sampleEntries).2 =
        sampleEntries.map fun entry => entry.value) :=
  makeBibliography_entries_spec sampleState sampleMeta sampleEntries

/-- C7: `setOutputFormat` normalizes the "text" alias to "plain"; when the
normalized format equals the session's current format it performs no handle
mutation and leaves the session untouched, otherwise it updates the session's
format field and issues exactly one format-switch call to the live handle,
with no release or re-creation; a repeated call with the same format is a
no-op. -/
theorem setOutputFormat_spec (format : String) (s : EngineState)
    (log : List DriverCall) :
    (setOutputFormat format (s, log) =
      (if s.format = (if format = "text" then "plain" else format) then (s, log)
       else ({ s with
               format := if format = "text" then "plain" else format,
               driver := s.driver.doSetOutputFormat
                 (if format = "text" then "plain" else format) },
             log ++ [.setOutputFormat (if format = "text" then "plain" else format)]))) ∧
    setOutputFormat format (setOutputFormat format (s, log)) =
      setOutputFormat format (s, log) := by
  constructor
  · by_cases h : s.format = (if format = "text" then "plain" else format) <;>
      simp [setOutputFormat, h]
  · by_cases h : s.format = (if format = "text" then "plain" else format) <;>
      simp [setOutputFormat, h]

/-- A handle whose release raises. -/
def failingDriver : Driver := { format := "html", freeError := some "wasm free failed" }

/-- A session owning the failing handle. -/
def failingState : EngineState :=
  { styleXML := "<style/>", overrideLocale := false, locale := "en-US",
    format := "html", styleID := "chicago", driver := failingDriver }

/-- C8 counterexample: at a concrete session whose handle release raises,
`free(false)` propagates the error, yet the session state afterwards is
identical to the state before — no failed-state flag exists or is set — and a
subsequent operation (`setOutputFormat("plain")`) still drives the stale
handle normally, so reuse is not prevented. -/
theorem free_no_failed_state_recorded :
    (free false (failingState, [])).1 = Except.error "wasm free failed" ∧
    (free false (failingState, [])).2.1 = failingState ∧
    setOutputFormat "plain" ((free false (failingState, [])).2) =
      ({ failingState with
         format := "plain",
         driver := failingState.driver.doSetOutputFormat "plain" },
       [.freeDriver, .setOutputFormat "plain"]) := by
  refine ⟨rfl, rfl, ?_⟩
  simp [free, setOutputFormat, failingState, failingDriver]

/-- C8 (amended): when releasing the handle raises an error, `free`
swallows it exactly when `ignoreErrors` is true and propagates it when
false; in both cases the session's fields, including its handle reference,
are unchanged — the code records no failed state and nothing marks the
handle unusable. -/
theorem free_spec (s : EngineState) (log : List DriverCall) (e : String)
    (h : s.driver.freeError = some e) :
    (free true (s, log)).1 = Except.ok () ∧
    (free false (s, log)).1 = Except.error e ∧
    (free true (s, log)).2.1 = s ∧
    (free false (s, log)).2.1 = s := by
  simp [free, h]

/-- Witness for the amended C8 at the concrete failing session. -/
theorem free_spec_witness :
    failingState.driver.freeError = some "wasm free failed" ∧
    ((free true (failingState, [])).1 = Except.ok () ∧
     (free false (failingState, [])).1 = Except.error "wasm free failed" ∧
     (free true (failingState, [])).2.1 = failingState ∧
     (free false (failingState, [])).2.1 = failingState) :=
  ⟨rfl, free_spec failingState [] "wasm free failed" rfl⟩

/-- C9: `updateUncitedItems` resolves each id through the item provider,
registers each resolved reference with the handle with its identifier
normalized to string form, then restricts uncited inclusion to exactly the
list of those normalized identifiers, replacing any previously configured
set (the resulting uncited set does not depend on the previous one); and
`updateItems` performs the identical operation on every input. -/
theorem updateUncitedItems_spec (sys : JSVal → Reference) (itemIDs : List JSVal)
    (s : EngineState) (log : List DriverCall) :
    (updateUncitedItems sys itemIDs (s, log) =
      ({ s with driver := { s.driver with
          references := s.driver.references ++ uncitedRefsOf sys itemIDs,
          uncited := some (uncitedIDsOf sys itemIDs) } },
       log ++ uncitedCalls sys itemIDs)) ∧
    updateItems sys itemIDs (s, log) = updateUncitedItems sys itemIDs (s, log) := by
  exact ⟨updateUncitedItems_eq sys itemIDs s log, rfl⟩

/-- C10: `appendCitationCluster` performs exactly the state change of
`insertCluster` — registering each cited reference and committing the cluster
under the citation's own `citationID` — and then queries the handle's
rendered string for that `citationID`; it leaves the document-wide cluster
order untouched and never generates a `citationID` (the committed cluster's
id is the citation's id verbatim, absent when absent). -/
theorem appendCitationCluster_spec (sys : JSVal → Reference) (citation : Citation)
    (s : EngineState) (log : List DriverCall) :
    (appendCitationCluster sys citation (s, log) =
      ((insertCluster sys citation (s, log)).1.1,
       (insertCluster sys citation (s, log)).1.2 ++ [.builtCluster citation.citationID])) ∧
    (appendCitationCluster sys citation (s, log)).1.driver.order = s.driver.order ∧
    (appendCitationCluster sys citation (s, log)).1.driver.clusters =
      s.driver.clusters ++ [clusterOf sys citation] ∧
    (clusterOf sys citation).id = citation.citationID := by
  refine ⟨?_, ?_, ?_, rfl⟩
  · simp only [appendCitationCluster, insertCluster_eq]
  · simp only [appendCitationCluster, insertCluster_eq]
  · simp only [appendCitationCluster, insertCluster_eq]

end CiteprocRs
